import Mathlib

/-!
Verification of the exposure-metering engine of `react_light_meter`.

The definitions below are a shallow embedding of the engine functions of
the repository (primary variant: the full `App.js` with AE lock, exposure
classifier and per-channel histograms; the zone overlay comes from the
variant that carries it).  JavaScript numbers are idealised as real
numbers; the `-Infinity` sentinel produced by `calculateEffectiveEV` for
non-positive brightness is modelled with `EReal`, whose bottom element
plays the role of `-Infinity`.  Shutter speeds and apertures are exact
table literals, modelled as rationals so that the exact-equality filters
of the resolver stay decidable.
-/

set_option maxRecDepth 4000

namespace LightMeter

/-- 18% gray card reference value (`const referenceGray = 128`). -/
def referenceGray : ℚ := 128

/-- Base EV at the reference gray and ISO 100 (`const referenceEV = 7`). -/
def referenceEV : ℝ := 7

/-- `const standardShutterSpeeds = [1/1000, …, 1]` (eleven entries). -/
def standardShutterSpeeds : List ℚ :=
  [1/1000, 1/500, 1/250, 1/125, 1/60, 1/30, 1/15, 1/8, 1/4, 1/2, 1]

/-- `const standardApertures = [1.4, 2, 2.8, 4, 5.6, 8, 11, 16, 22]`. -/
def standardApertures : List ℚ :=
  [7/5, 2, 14/5, 4, 28/5, 8, 11, 16, 22]

/-- One entry of the shutter/aperture table.  The source stores the entry
EV alongside the pair; here the EV is recovered by `candidateEV` so the
table itself stays decidable. -/
structure Candidate where
  shutter : ℚ
  aperture : ℚ
deriving DecidableEq, Repr

/-- `ev: Math.log2((a * a) / s)` of a table entry. -/
noncomputable def candidateEV (c : Candidate) : ℝ :=
  Real.logb 2 (((c.aperture : ℝ) * (c.aperture : ℝ)) / (c.shutter : ℝ))

/-- `const shutterApertureEV = standardShutterSpeeds.flatMap(s =>
standardApertures.map(a => ({shutter: s, aperture: a, ev: …})))` —
the 11 × 9 = 99 entry candidate table. -/
def shutterApertureEV : List Candidate :=
  standardShutterSpeeds.flatMap fun s =>
    standardApertures.map fun a => ⟨s, a⟩

/--
`function calculateEffectiveEV(avgBrightness, iso, compensation,
calibrationFactor = 1.0)`:

  if (avgBrightness <= 0) return -Infinity;
  const measuredEV = referenceEV
    + Math.log2((avgBrightness * calibrationFactor) / referenceGray)
    + Math.log2(iso / 100);
  return measuredEV + compensation;

`-Infinity` is modelled by `(⊥ : EReal)`.
-/
noncomputable def calculateEffectiveEV (avgBrightness iso compensation : ℝ)
    (calibrationFactor : ℝ) : EReal :=
  if avgBrightness ≤ 0 then ⊥
  else ((referenceEV
      + Real.logb 2 ((avgBrightness * calibrationFactor) / (referenceGray : ℝ))
      + Real.logb 2 (iso / 100)
      + compensation : ℝ) : EReal)

lemma calculateEffectiveEV_of_pos {b : ℝ} (hb : 0 < b) (i c f : ℝ) :
    calculateEffectiveEV b i c f =
      ((referenceEV + Real.logb 2 ((b * f) / (referenceGray : ℝ))
        + Real.logb 2 (i / 100) + c : ℝ) : EReal) := by
  unfold calculateEffectiveEV
  rw [if_neg (not_le.mpr hb)]

/-- C1: For brightness `b > 0`, `calculateEffectiveEV` is strictly
increasing in brightness (for positive calibration factor), strictly
increasing in ISO (over the positive ISO values), and exactly linear with
slope 1 in the compensation argument. -/
theorem calculateEffectiveEV_monotone :
    (∀ b₁ b₂ i c f : ℝ, 0 < b₁ → b₁ < b₂ → 0 < f →
      calculateEffectiveEV b₁ i c f < calculateEffectiveEV b₂ i c f) ∧
    (∀ b i₁ i₂ c f : ℝ, 0 < b → 0 < f → 0 < i₁ → i₁ < i₂ →
      calculateEffectiveEV b i₁ c f < calculateEffectiveEV b i₂ c f) ∧
    (∀ b i c d f : ℝ, 0 < b →
      calculateEffectiveEV b i (c + d) f =
        calculateEffectiveEV b i c f + (d : ℝ)) := by
  refine ⟨?_, ?_, ?_⟩
  · intro b₁ b₂ i c f hb₁ hlt hf
    rw [calculateEffectiveEV_of_pos hb₁, calculateEffectiveEV_of_pos (hb₁.trans hlt)]
    rw [EReal.coe_lt_coe_iff]
    have hgray : (0 : ℝ) < (referenceGray : ℝ) := by norm_num [referenceGray]
    have harg : b₁ * f / (referenceGray : ℝ) < b₂ * f / (referenceGray : ℝ) := by
      apply div_lt_div_of_pos_right _ hgray
      exact mul_lt_mul_of_pos_right hlt hf
    have hpos : 0 < b₁ * f / (referenceGray : ℝ) := by positivity
    have hlog := Real.logb_lt_logb (b := 2) one_lt_two hpos harg
    linarith
  · intro b i₁ i₂ c f hb hf hi₁ hlt
    rw [calculateEffectiveEV_of_pos hb, calculateEffectiveEV_of_pos hb]
    rw [EReal.coe_lt_coe_iff]
    have harg : i₁ / 100 < i₂ / 100 := by linarith
    have hpos : (0 : ℝ) < i₁ / 100 := by positivity
    have hlog := Real.logb_lt_logb (b := 2) one_lt_two hpos harg
    linarith
  · intro b i c d f hb
    rw [calculateEffectiveEV_of_pos hb, calculateEffectiveEV_of_pos hb,
      ← EReal.coe_add]
    norm_cast
    ring

/-- Witness for `calculateEffectiveEV_monotone` at concrete inputs. -/
theorem calculateEffectiveEV_monotone_witness :
    calculateEffectiveEV 64 100 0 1 < calculateEffectiveEV 128 100 0 1 ∧
    calculateEffectiveEV 128 100 0 1 < calculateEffectiveEV 128 400 0 1 ∧
    calculateEffectiveEV 128 100 (0 + 1) 1 =
      calculateEffectiveEV 128 100 0 1 + ((1 : ℝ) : EReal) :=
  ⟨calculateEffectiveEV_monotone.1 64 128 100 0 1 (by norm_num) (by norm_num)
      (by norm_num),
   calculateEffectiveEV_monotone.2.1 128 100 400 0 1 (by norm_num) (by norm_num)
      (by norm_num) (by norm_num),
   calculateEffectiveEV_monotone.2.2 128 100 0 1 1 (by norm_num)⟩

/-- C2: For brightness `≤ 0` the EV calculator returns the
`-Infinity` sentinel (no exception: the function is total), and for
brightness `> 0` (with the ISO and calibration factor positive, as all
configured values are) it never returns the sentinel. -/
theorem calculateEffectiveEV_sentinel :
    (∀ b i c f : ℝ, b ≤ 0 → calculateEffectiveEV b i c f = ⊥) ∧
    (∀ b i c f : ℝ, 0 < b → 0 < i → 0 < f →
      calculateEffectiveEV b i c f ≠ ⊥) := by
  constructor
  · intro b i c f hb
    unfold calculateEffectiveEV
    rw [if_pos hb]
  · intro b i c f hb _ _
    rw [calculateEffectiveEV_of_pos hb]
    exact EReal.coe_ne_bot _

/-- Witness for `calculateEffectiveEV_sentinel` at concrete inputs. -/
theorem calculateEffectiveEV_sentinel_witness :
    calculateEffectiveEV 0 100 0 1 = ⊥ ∧
    calculateEffectiveEV 128 100 0 1 ≠ ⊥ :=
  ⟨calculateEffectiveEV_sentinel.1 0 100 0 1 (by norm_num),
   calculateEffectiveEV_sentinel.2 128 100 0 1 (by norm_num) (by norm_num)
      (by norm_num)⟩

/-- `Math.abs` extended to the `EReal` model of JavaScript numbers
(`Math.abs(-Infinity) = Math.abs(Infinity) = Infinity`). -/
noncomputable def absEReal (x : EReal) : EReal := max x (-x)

/-- One iteration of the resolver's min-search loop:

  const diff = Math.abs(candidate.ev - effectiveEV);
  if (diff < minDiff) { minDiff = diff; closestCandidate = candidate; }
-/
noncomputable def searchStep (effectiveEV : EReal)
    (acc : Option Candidate × EReal) (c : Candidate) :
    Option Candidate × EReal :=
  if absEReal ((candidateEV c : EReal) - effectiveEV) < acc.2
  then (some c, absEReal ((candidateEV c : EReal) - effectiveEV))
  else acc

/-- The resolver's search over a candidate list, starting from
`closestCandidate = null, minDiff = Infinity`. -/
noncomputable def findClosest (effectiveEV : EReal)
    (candidates : List Candidate) : Option Candidate :=
  (candidates.foldl (searchStep effectiveEV) (Option.none, (⊤ : EReal))).1

/-- The record returned by the two priority resolvers. -/
structure ExposureResult where
  shutterSpeed : ℚ
  aperture : ℚ
  effectiveEV : EReal
  evDifference : EReal

/-- `function calculateExposureShutterPriority(avgBrightness, iso,
compensation, chosenShutter, calibrationFactor = 1.0)`: filter the table
to the chosen shutter, min-search on `|ev - effectiveEV|`, return the
chosen shutter with the winning aperture (`0` when no candidate won). -/
noncomputable def calculateExposureShutterPriority
    (avgBrightness iso compensation : ℝ) (chosenShutter : ℚ)
    (calibrationFactor : ℝ) : ExposureResult :=
  let eff := calculateEffectiveEV avgBrightness iso compensation calibrationFactor
  let candidates := shutterApertureEV.filter fun c => c.shutter == chosenShutter
  match findClosest eff candidates with
  | some c => ⟨chosenShutter, c.aperture, eff, (candidateEV c : EReal) - eff⟩
  | Option.none => ⟨chosenShutter, 0, eff, 0⟩

/-- `function calculateExposureAperturePriority(avgBrightness, iso,
compensation, chosenAperture, calibrationFactor = 1.0)`: filter the table
to the chosen aperture, min-search on `|ev - effectiveEV|`, return the
chosen aperture with the winning shutter (`0` when no candidate won). -/
noncomputable def calculateExposureAperturePriority
    (avgBrightness iso compensation : ℝ) (chosenAperture : ℚ)
    (calibrationFactor : ℝ) : ExposureResult :=
  let eff := calculateEffectiveEV avgBrightness iso compensation calibrationFactor
  let candidates := shutterApertureEV.filter fun c => c.aperture == chosenAperture
  match findClosest eff candidates with
  | some c => ⟨c.shutter, chosenAperture, eff, (candidateEV c : EReal) - eff⟩
  | Option.none => ⟨0, chosenAperture, eff, 0⟩

lemma absEReal_coe (r : ℝ) : absEReal ((r : ℝ) : EReal) = ((|r| : ℝ) : EReal) := by
  unfold absEReal
  rw [← EReal.coe_neg, abs_eq_max_neg]
  rcases le_total r (-r) with h | h
  · rw [max_eq_right h, max_eq_right (EReal.coe_le_coe_iff.mpr h)]
  · rw [max_eq_left h, max_eq_left (EReal.coe_le_coe_iff.mpr h)]

lemma absEReal_coe_sub_coe (a x : ℝ) :
    absEReal ((a : EReal) - (x : EReal)) = ((|a - x| : ℝ) : EReal) := by
  rw [← EReal.coe_sub, absEReal_coe]

lemma absEReal_coe_sub_bot (a : ℝ) :
    absEReal ((a : EReal) - ⊥) = ⊤ := by
  rw [EReal.coe_sub_bot]
  unfold absEReal
  exact max_eq_left le_top

/-- With `effectiveEV = -Infinity` every candidate's distance is
`Infinity`, `Infinity < Infinity` is false, and the loop keeps
`closestCandidate = null`. -/
lemma findClosest_bot (l : List Candidate) : findClosest ⊥ l = Option.none := by
  unfold findClosest
  have h : ∀ t : List Candidate,
      t.foldl (searchStep ⊥) (Option.none, (⊤ : EReal)) =
        (Option.none, (⊤ : EReal)) := by
    intro t
    induction t with
    | nil => rfl
    | cons c t ih =>
      rw [List.foldl_cons]
      have hstep : searchStep ⊥ (Option.none, (⊤ : EReal)) c =
          (Option.none, (⊤ : EReal)) := by
        unfold searchStep
        rw [absEReal_coe_sub_bot]
        simp
      rw [hstep, ih]
  rw [h]

lemma searchStep_coe (x r : ℝ) (o : Option Candidate) (c : Candidate) :
    searchStep (x : EReal) (o, ((r : ℝ) : EReal)) c =
      if |candidateEV c - x| < r
      then (some c, ((|candidateEV c - x| : ℝ) : EReal))
      else (o, ((r : ℝ) : EReal)) := by
  unfold searchStep
  rw [absEReal_coe_sub_coe]
  by_cases h : |candidateEV c - x| < r
  · rw [if_pos (EReal.coe_lt_coe_iff.mpr h), if_pos h]
  · rw [if_neg (fun hc => h (EReal.coe_lt_coe_iff.mp hc)), if_neg h]

lemma foldl_searchStep_some (x : ℝ) (l : List Candidate) (c₀ : Candidate) :
    ∃ c, l.foldl (searchStep (x : EReal))
        (some c₀, ((|candidateEV c₀ - x| : ℝ) : EReal)) =
        (some c, ((|candidateEV c - x| : ℝ) : EReal)) ∧
      (c = c₀ ∨ c ∈ l) ∧
      |candidateEV c - x| ≤ |candidateEV c₀ - x| ∧
      ∀ c' ∈ l, |candidateEV c - x| ≤ |candidateEV c' - x| := by
  induction l generalizing c₀ with
  | nil =>
    exact ⟨c₀, rfl, Or.inl rfl, le_refl _, by intro c' hc'; cases hc'⟩
  | cons c₁ t ih =>
    rw [List.foldl_cons, searchStep_coe]
    by_cases h : |candidateEV c₁ - x| < |candidateEV c₀ - x|
    · rw [if_pos h]
      obtain ⟨c, hc, hmem, hle, hall⟩ := ih c₁
      refine ⟨c, hc, ?_, ?_, ?_⟩
      · rcases hmem with he | hm
        · exact Or.inr (he ▸ List.mem_cons_self c₁ t)
        · exact Or.inr (List.mem_cons_of_mem _ hm)
      · exact hle.trans h.le
      · intro c' hc'
        rcases List.mem_cons.mp hc' with he | hm
        · exact he ▸ hle
        · exact hall c' hm
    · rw [if_neg h]
      obtain ⟨c, hc, hmem, hle, hall⟩ := ih c₀
      refine ⟨c, hc, ?_, hle, ?_⟩
      · rcases hmem with he | hm
        · exact Or.inl he
        · exact Or.inr (List.mem_cons_of_mem _ hm)
      · intro c' hc'
        rcases List.mem_cons.mp hc' with he | hm
        · exact he ▸ (hle.trans (not_lt.mp h))
        · exact hall c' hm

/-- For a finite effective EV the search is total over a non-empty list
and returns a candidate at minimal `|ev - effectiveEV|` distance. -/
lemma findClosest_spec (x : ℝ) (l : List Candidate) (h : l ≠ []) :
    ∃ c, findClosest (x : EReal) l = some c ∧ c ∈ l ∧
      ∀ c' ∈ l, |candidateEV c - x| ≤ |candidateEV c' - x| := by
  obtain ⟨c₁, t, rfl⟩ := List.exists_cons_of_ne_nil h
  unfold findClosest
  rw [List.foldl_cons]
  have hfirst : searchStep (x : EReal) (Option.none, (⊤ : EReal)) c₁ =
      (some c₁, ((|candidateEV c₁ - x| : ℝ) : EReal)) := by
    unfold searchStep
    rw [absEReal_coe_sub_coe, if_pos (EReal.coe_lt_top _)]
  rw [hfirst]
  obtain ⟨c, hc, hmem, hle, hall⟩ := foldl_searchStep_some x t c₁
  refine ⟨c, by rw [hc], ?_, ?_⟩
  · rcases hmem with he | hm
    · exact he ▸ List.mem_cons_self c₁ t
    · exact List.mem_cons_of_mem _ hm
  · intro c' hc'
    rcases List.mem_cons.mp hc' with he | hm
    · exact he ▸ hle
    · exact hall c' hm

/-- Every table entry draws its shutter from `standardShutterSpeeds` and
its aperture from `standardApertures`. -/
lemma mem_table_axes (c : Candidate) (hc : c ∈ shutterApertureEV) :
    c.shutter ∈ standardShutterSpeeds ∧ c.aperture ∈ standardApertures := by
  unfold shutterApertureEV at hc
  rw [List.mem_flatMap] at hc
  obtain ⟨s, hs, hc⟩ := hc
  rw [List.mem_map] at hc
  obtain ⟨a, ha, rfl⟩ := hc
  exact ⟨hs, ha⟩

lemma mem_shutterApertureEV {s a : ℚ} (hs : s ∈ standardShutterSpeeds)
    (ha : a ∈ standardApertures) : (⟨s, a⟩ : Candidate) ∈ shutterApertureEV := by
  unfold shutterApertureEV
  rw [List.mem_flatMap]
  exact ⟨s, hs, List.mem_map.mpr ⟨a, ha, rfl⟩⟩

lemma filter_ne_nil_of_mem {p : Candidate → Bool} {c : Candidate}
    (hc : c ∈ shutterApertureEV) (hp : p c = true) :
    shutterApertureEV.filter p ≠ [] :=
  List.ne_nil_of_mem (List.mem_filter.mpr ⟨hc, hp⟩)

lemma shutter125_mem : (1/125 : ℚ) ∈ standardShutterSpeeds := by
  norm_num [standardShutterSpeeds]

lemma aperture28_mem : (14/5 : ℚ) ∈ standardApertures := by
  norm_num [standardApertures]

lemma filter_shutter125_ne_nil :
    shutterApertureEV.filter (fun c => c.shutter == (1/125 : ℚ)) ≠ [] :=
  filter_ne_nil_of_mem (mem_shutterApertureEV shutter125_mem aperture28_mem)
    (by simp)

lemma filter_aperture28_ne_nil :
    shutterApertureEV.filter (fun c => c.aperture == (14/5 : ℚ)) ≠ [] :=
  filter_ne_nil_of_mem (mem_shutterApertureEV shutter125_mem aperture28_mem)
    (by simp)

lemma zero_not_mem_shutterSpeeds : (0 : ℚ) ∉ standardShutterSpeeds := by
  norm_num [standardShutterSpeeds]

/-- C3 (amended): For every finite effective EV and chosen fixed-axis
value, whenever the matching subset of the 99-entry table is non-empty
the search returns a candidate of that subset minimizing
`|candidate.ev - effectiveEV|`; being a pure function of its arguments,
it is deterministic for identical inputs.  (As stated over *every*
effective EV the claim fails: the code also feeds the search the
`-Infinity` sentinel, where it returns no candidate — see
`findClosest_bot_nonempty_table`.) -/
theorem resolver_minimizes (x : ℝ) (chosenShutter chosenAperture : ℚ)
    (hs : shutterApertureEV.filter (fun c => c.shutter == chosenShutter) ≠ [])
    (ha : shutterApertureEV.filter (fun c => c.aperture == chosenAperture) ≠ []) :
    (∃ c, findClosest (x : EReal)
        (shutterApertureEV.filter (fun c => c.shutter == chosenShutter)) = some c ∧
      c ∈ shutterApertureEV.filter (fun c => c.shutter == chosenShutter) ∧
      ∀ c' ∈ shutterApertureEV.filter (fun c => c.shutter == chosenShutter),
        |candidateEV c - x| ≤ |candidateEV c' - x|) ∧
    (∃ c, findClosest (x : EReal)
        (shutterApertureEV.filter (fun c => c.aperture == chosenAperture)) = some c ∧
      c ∈ shutterApertureEV.filter (fun c => c.aperture == chosenAperture) ∧
      ∀ c' ∈ shutterApertureEV.filter (fun c => c.aperture == chosenAperture),
        |candidateEV c - x| ≤ |candidateEV c' - x|) :=
  ⟨findClosest_spec x _ hs, findClosest_spec x _ ha⟩

/-- Witness for `resolver_minimizes` at a concrete EV and the default
chosen shutter (1/125) and aperture (f/2.8). -/
theorem resolver_minimizes_witness :
    (shutterApertureEV.filter (fun c => c.shutter == (1/125 : ℚ)) ≠ [] ∧
     shutterApertureEV.filter (fun c => c.aperture == (14/5 : ℚ)) ≠ []) ∧
    (∃ c, findClosest ((7 : ℝ) : EReal)
        (shutterApertureEV.filter (fun c => c.shutter == (1/125 : ℚ))) = some c ∧
      c ∈ shutterApertureEV.filter (fun c => c.shutter == (1/125 : ℚ)) ∧
      ∀ c' ∈ shutterApertureEV.filter (fun c => c.shutter == (1/125 : ℚ)),
        |candidateEV c - 7| ≤ |candidateEV c' - 7|) :=
  ⟨⟨filter_shutter125_ne_nil, filter_aperture28_ne_nil⟩,
   (resolver_minimizes 7 (1/125) (14/5) filter_shutter125_ne_nil
      filter_aperture28_ne_nil).1⟩

/-- C3 counterexample: The claim quantifies over every effective EV
value; at the `-Infinity` sentinel (produced by the code for brightness
`≤ 0`) the filtered subset for aperture f/2.8 is non-empty yet the search
returns no candidate. -/
theorem findClosest_bot_nonempty_table :
    shutterApertureEV.filter (fun c => c.aperture == (14/5 : ℚ)) ≠ [] ∧
    calculateEffectiveEV 0 100 0 1 = ⊥ ∧
    findClosest (calculateEffectiveEV 0 100 0 1)
      (shutterApertureEV.filter (fun c => c.aperture == (14/5 : ℚ))) =
      Option.none := by
  have hsent : calculateEffectiveEV 0 100 0 1 = ⊥ := by
    unfold calculateEffectiveEV
    rw [if_pos le_rfl]
  exact ⟨filter_aperture28_ne_nil, hsent, by rw [hsent, findClosest_bot]⟩

/-- C4 (amended): For every brightness `> 0` (with ISO and
calibration factor positive, as all configured values are), the
aperture-priority resolver at f/2.8 returns aperture exactly 2.8 and a
shutter speed drawn from the fixed eleven-entry shutter list.  (As stated
over *every* brightness the claim fails at brightness `0` — see
`aperturePriority_zero_brightness`.) -/
theorem aperturePriority_in_table (b i c f : ℝ)
    (hb : 0 < b) (hi : 0 < i) (hf : 0 < f) :
    (calculateExposureAperturePriority b i c (14/5) f).aperture = 14/5 ∧
    (calculateExposureAperturePriority b i c (14/5) f).shutterSpeed ∈
      standardShutterSpeeds := by
  obtain ⟨cand, hfc, hmem, -⟩ :=
    findClosest_spec
      (referenceEV + Real.logb 2 (b * f / (referenceGray : ℝ))
        + Real.logb 2 (i / 100) + c)
      (shutterApertureEV.filter (fun cd => cd.aperture == (14/5 : ℚ)))
      filter_aperture28_ne_nil
  constructor
  · simp only [calculateExposureAperturePriority, calculateEffectiveEV_of_pos hb, hfc]
  · simp only [calculateExposureAperturePriority, calculateEffectiveEV_of_pos hb, hfc]
    exact (mem_table_axes cand (List.mem_filter.mp hmem).1).1

/-- Witness for `aperturePriority_in_table` at concrete inputs. -/
theorem aperturePriority_in_table_witness :
    (calculateExposureAperturePriority 128 100 0 (14/5) 1).aperture = 14/5 ∧
    (calculateExposureAperturePriority 128 100 0 (14/5) 1).shutterSpeed ∈
      standardShutterSpeeds :=
  aperturePriority_in_table 128 100 0 1 (by norm_num) (by norm_num) (by norm_num)

/-- C4 counterexample: At brightness `0` the effective EV is the
`-Infinity` sentinel, the min-search selects no candidate, and the
aperture-priority resolver returns `shutterSpeed = 0`, which is not one
of the eleven fixed shutter speeds. -/
theorem aperturePriority_zero_brightness :
    (calculateExposureAperturePriority 0 100 0 (14/5) 1).shutterSpeed = 0 ∧
    (0 : ℚ) ∉ standardShutterSpeeds := by
  have hsent : calculateEffectiveEV 0 100 0 1 = ⊥ := by
    unfold calculateEffectiveEV
    rw [if_pos le_rfl]
  constructor
  · simp only [calculateExposureAperturePriority, hsent, findClosest_bot]
  · exact zero_not_mem_shutterSpeeds

/-- The temporal smoother step of the metering tick:

  if (smoothedEVRef.current === null) smoothedEVRef.current = currentEV;
  else smoothedEVRef.current =
    smoothedEVRef.current * (1 - smoothingFactor) + currentEV * smoothingFactor;

The unset `null` state is `Option.none`. -/
def smoothStep (prev : Option ℝ) (currentEV smoothingFactor : ℝ) : ℝ :=
  match prev with
  | Option.none => currentEV
  | some s => s * (1 - smoothingFactor) + currentEV * smoothingFactor

/-- The per-tick mutable state of the engine: the smoother's ref, the
AE-lock flag with its captured value, and the two published fields of
the `exposure` record that the meter page renders (`expSmoothedEV` is
shown as "Current EV"; `expEffectiveEV` feeds the warning colour). -/
structure MeterState where
  smoothedEVRefCur : Option ℝ
  aeLocked : Bool
  lockedEV : Option ℝ
  expEffectiveEV : ℝ
  expSmoothedEV : ℝ

/-- One metering tick (the interval callback): compute the raw effective
EV (`currentEV`), update the smoother from it, publish `smoothedEV`, and
only then override the published `effectiveEV` with the locked value:

  let currentEV = exp.effectiveEV;
  if (smoothedEVRef.current === null) { … } else { … }
  exp.smoothedEV = smoothedEVRef.current;
  if (aeLocked && lockedEVRef.current !== null) {
    exp.effectiveEV = lockedEVRef.current;
  }
  setExposure(exp);
-/
def meterTick (st : MeterState) (currentEV smoothingFactor : ℝ) : MeterState :=
  let s := smoothStep st.smoothedEVRefCur currentEV smoothingFactor
  let eff := if st.aeLocked then
      (match st.lockedEV with
       | some v => v
       | Option.none => currentEV)
    else currentEV
  { st with smoothedEVRefCur := some s, expSmoothedEV := s, expEffectiveEV := eff }

/-- `function handleAeLock()`: an explicit two-state toggle; locking
captures the currently published `exposure.effectiveEV` once. -/
def handleAeLock (st : MeterState) : MeterState :=
  if st.aeLocked then { st with aeLocked := false, lockedEV := Option.none }
  else { st with lockedEV := some st.expEffectiveEV, aeLocked := true }

/-- A run of consecutive metering ticks over a list of raw EV samples. -/
def runTicks (st : MeterState) (samples : List ℝ) (smoothingFactor : ℝ) :
    MeterState :=
  samples.foldl (fun s e => meterTick s e smoothingFactor) st

lemma meterTick_locked {st : MeterState} {v : ℝ} (h1 : st.aeLocked = true)
    (h2 : st.lockedEV = some v) (e α : ℝ) :
    (meterTick st e α).aeLocked = true ∧
    (meterTick st e α).lockedEV = some v ∧
    (meterTick st e α).expEffectiveEV = v := by
  unfold meterTick
  refine ⟨h1, h2, ?_⟩
  simp only [h1, h2, if_true]

lemma meterTick_after_unlock (st : MeterState) (h : st.aeLocked = true)
    (e α : ℝ) : (meterTick (handleAeLock st) e α).expEffectiveEV = e := by
  unfold handleAeLock
  rw [if_pos h]
  unfold meterTick
  simp

lemma runTicks_locked (α v : ℝ) :
    ∀ (samples : List ℝ) (st : MeterState), st.aeLocked = true →
      st.lockedEV = some v → st.expEffectiveEV = v →
      (runTicks st samples α).aeLocked = true ∧
      (runTicks st samples α).lockedEV = some v ∧
      (runTicks st samples α).expEffectiveEV = v := by
  intro samples
  induction samples with
  | nil => exact fun st h1 h2 h3 => ⟨h1, h2, h3⟩
  | cons e t ih =>
    intro st h1 h2 h3
    obtain ⟨g1, g2, g3⟩ := meterTick_locked h1 h2 e α
    exact ih (meterTick st e α) g1 g2 g3

/-- C5 (amended): While AE-lock is engaged, the `effectiveEV` field
of the published exposure reading is pinned to the value captured at the
moment of locking: feeding any number of new samples leaves it at the
captured value, and an explicit unlock resumes live tracking on the next
tick.  (As stated — about the *displayed* EV, which the meter page
renders from `exposure.smoothedEV` — the claim fails: the smoother keeps
tracking the live samples while locked; see
`aeLock_smoothedEV_not_pinned`.) -/
theorem aeLock_pins_effectiveEV (st : MeterState) (α e' : ℝ)
    (samples : List ℝ) (hunlocked : st.aeLocked = false) :
    (runTicks (handleAeLock st) samples α).expEffectiveEV =
      st.expEffectiveEV ∧
    (runTicks (handleAeLock st) samples α).aeLocked = true ∧
    (meterTick (handleAeLock (runTicks (handleAeLock st) samples α)) e' α).expEffectiveEV
      = e' := by
  have hlock : handleAeLock st =
      { st with lockedEV := some st.expEffectiveEV, aeLocked := true } := by
    unfold handleAeLock
    rw [hunlocked]
    simp
  obtain ⟨g1, g2, g3⟩ := runTicks_locked α st.expEffectiveEV samples
    (handleAeLock st) (by rw [hlock]) (by rw [hlock]) (by rw [hlock])
  exact ⟨g3, g1, meterTick_after_unlock _ g1 e' α⟩

/-- Witness for `aeLock_pins_effectiveEV`: lock at EV 4, feed three
fresh samples, the published effective EV stays 4; unlocking and ticking
at sample 9 publishes 9. -/
theorem aeLock_pins_effectiveEV_witness :
    (runTicks (handleAeLock ⟨some 4, false, Option.none, 4, 4⟩) [6, 8, 10] (1/2)).expEffectiveEV = 4 ∧
    (meterTick (handleAeLock (runTicks (handleAeLock ⟨some 4, false, Option.none, 4, 4⟩) [6, 8, 10] (1/2))) 9 (1/2)).expEffectiveEV = 9 :=
  ⟨(aeLock_pins_effectiveEV ⟨some 4, false, Option.none, 4, 4⟩ (1/2) 9 [6, 8, 10] rfl).1,
   (aeLock_pins_effectiveEV ⟨some 4, false, Option.none, 4, 4⟩ (1/2) 9 [6, 8, 10] rfl).2.2⟩

/-- C5 counterexample: The meter page displays
`exposure.smoothedEV` ("Current EV"); with the lock engaged (captured
value 4) a single tick at the distinct live sample 6 moves the displayed
value from 4 to 5: the displayed EV is not pinned by AE-lock. -/
theorem aeLock_smoothedEV_not_pinned :
    (meterTick (handleAeLock ⟨some 4, false, Option.none, 4, 4⟩) 6 (1/2)).aeLocked = true ∧
    (meterTick (handleAeLock ⟨some 4, false, Option.none, 4, 4⟩) 6 (1/2)).expSmoothedEV = 5 ∧
    (5 : ℝ) ≠ 4 := by
  refine ⟨?_, ?_, by norm_num⟩
  · simp [meterTick, handleAeLock]
  · norm_num [meterTick, handleAeLock, smoothStep]

/-- The smoother fed a constant sample from the unset state: the first
tick copies the sample, every later tick applies the EMA update. -/
def iterateSmoother (smoothingFactor effectiveEV : ℝ) : ℕ → Option ℝ
  | 0 => Option.none
  | n + 1 =>
      some (smoothStep (iterateSmoother smoothingFactor effectiveEV n)
        effectiveEV smoothingFactor)

lemma iterateSmoother_const (α E : ℝ) :
    ∀ n : ℕ, iterateSmoother α E (n + 1) = some E := by
  intro n
  induction n with
  | zero => rfl
  | succ k ih =>
    show some (smoothStep (iterateSmoother α E (k + 1)) E α) = some E
    rw [ih]
    show some (E * (1 - α) + E * α) = some E
    congr 1
    ring

/-- C6: From the unset state the smoother copies the first sample
and applies `smoothedEV := smoothedEV * (1 - α) + effectiveEV * α`
afterwards; consequently a constant sample `E` fed for `N ≥ 50` ticks
with any `α ∈ (0,1)` leaves `smoothedEV` within `1e-6` of `E` (in fact
exactly at `E`). -/
theorem smoother_step_and_convergence :
    (∀ e α : ℝ, smoothStep Option.none e α = e) ∧
    (∀ s e α : ℝ, smoothStep (some s) e α = s * (1 - α) + e * α) ∧
    (∀ (E α : ℝ) (N : ℕ), 0 < α → α < 1 → 50 ≤ N →
      ∃ s, iterateSmoother α E N = some s ∧ |s - E| ≤ 1e-6) := by
  refine ⟨fun e α => rfl, fun s e α => rfl, ?_⟩
  intro E α N h0 h1 hN
  obtain ⟨k, rfl⟩ : ∃ k, N = k + 1 := ⟨N - 1, by omega⟩
  refine ⟨E, iterateSmoother_const α E k, ?_⟩
  rw [sub_self, abs_zero]
  norm_num

/-- Witness for `smoother_step_and_convergence` at `E = 7`, `α = 1/2`,
`N = 50`. -/
theorem smoother_step_and_convergence_witness :
    (0 : ℝ) < 1/2 ∧ (1/2 : ℝ) < 1 ∧ (50 : ℕ) ≤ 50 ∧
    ∃ s, iterateSmoother (1/2) 7 50 = some s ∧ |s - 7| ≤ 1e-6 :=
  ⟨by norm_num, by norm_num, le_refl 50,
   smoother_step_and_convergence.2.2 7 (1/2) 50 (by norm_num) (by norm_num)
     (le_refl 50)⟩

/-- The severity levels of the exposure-warning chain. -/
inductive ExposureSeverity where
  | severeUnder
  | moderateUnder
  | slightUnder
  | balanced
  | slightOver
  | moderateOver
  | severeOver
deriving DecidableEq, Repr

/-- The exposure-warning chain of the metering tick:

  if (exp.evDifference <= -1) { severely underexposed }
  else if (exp.evDifference <= -0.6) { moderately underexposed }
  else if (exp.evDifference <= -0.3) { slightly underexposed }
  else if (exp.evDifference >= 1) { severely overexposed }
  else if (exp.evDifference >= 0.6) { moderately overexposed }
  else if (exp.evDifference >= 0.3) { slightly overexposed }
  else { no warning }
-/
noncomputable def classifyExposure (evDifference : ℝ) : ExposureSeverity :=
  if evDifference ≤ -1 then .severeUnder
  else if evDifference ≤ -0.6 then .moderateUnder
  else if evDifference ≤ -0.3 then .slightUnder
  else if 1 ≤ evDifference then .severeOver
  else if 0.6 ≤ evDifference then .moderateOver
  else if 0.3 ≤ evDifference then .slightOver
  else .balanced

/-- C7: The classifier realises exactly the spec's band table with
thresholds 0.3, 0.6 and 1.0 EV (under-side upper-inclusive, over-side
lower-inclusive), including the four boundary points singled out by the
spec. -/
theorem classifyExposure_bands (d : ℝ) :
    (d ≤ -1 → classifyExposure d = .severeUnder) ∧
    (-1 < d → d ≤ -0.6 → classifyExposure d = .moderateUnder) ∧
    (-0.6 < d → d ≤ -0.3 → classifyExposure d = .slightUnder) ∧
    (-0.3 < d → d < 0.3 → classifyExposure d = .balanced) ∧
    (0.3 ≤ d → d < 0.6 → classifyExposure d = .slightOver) ∧
    (0.6 ≤ d → d < 1 → classifyExposure d = .moderateOver) ∧
    (1 ≤ d → classifyExposure d = .severeOver) ∧
    classifyExposure (-1) = .severeUnder ∧
    classifyExposure (-0.6) = .moderateUnder ∧
    classifyExposure 0 = .balanced ∧
    classifyExposure 1 = .severeOver := by
  refine ⟨?_, ?_, ?_, ?_, ?_, ?_, ?_, ?_, ?_, ?_, ?_⟩
  · intro h
    unfold classifyExposure
    split_ifs <;> first | rfl | (exfalso; linarith)
  · intro h1 h2
    unfold classifyExposure
    split_ifs <;> first | rfl | (exfalso; linarith)
  · intro h1 h2
    unfold classifyExposure
    split_ifs <;> first | rfl | (exfalso; linarith)
  · intro h1 h2
    unfold classifyExposure
    split_ifs <;> first | rfl | (exfalso; linarith)
  · intro h1 h2
    unfold classifyExposure
    split_ifs <;> first | rfl | (exfalso; linarith)
  · intro h1 h2
    unfold classifyExposure
    split_ifs <;> first | rfl | (exfalso; linarith)
  · intro h
    unfold classifyExposure
    split_ifs <;> first | rfl | (exfalso; linarith)
  · norm_num [classifyExposure]
  · norm_num [classifyExposure]
  · norm_num [classifyExposure]
  · norm_num [classifyExposure]

/-- Witness for `classifyExposure_bands` at two interior points. -/
theorem classifyExposure_bands_witness :
    classifyExposure (-2) = .severeUnder ∧
    classifyExposure (0.45) = .slightOver :=
  ⟨(classifyExposure_bands (-2)).1 (by norm_num),
   ((classifyExposure_bands (0.45)).2.2.2.2.1 (by norm_num) (by norm_num))⟩

/-- One pixel of the working buffer (8-bit channels are a hypothesis of
the theorems, not of the type, mirroring the untyped pixel array). -/
structure Pixel where
  r : ℕ
  g : ℕ
  b : ℕ
deriving DecidableEq, Repr

/-- The stride subsample of the histogram loops: `if ((i / 4) % 2 === 0)`
keeps the pixels with even pixel index — the first, third, … pixel of
the working buffer. -/
def sampleEveryOther : List Pixel → List Pixel
  | [] => []
  | [p] => [p]
  | p :: _ :: rest => p :: sampleEveryOther rest

/-- `Math.floor(0.299 * data[i] + 0.587 * data[i+1] + 0.114 * data[i+2])`
— the BT.601 luma of the combined histogram. -/
noncomputable def lumaOf (p : Pixel) : ℤ :=
  ⌊(0.299 * (p.r : ℝ) + 0.587 * (p.g : ℝ) + 0.114 * (p.b : ℝ))⌋

/-- `const adjusted = brightness * Math.pow(2, compensation);
const adjustedBrightness = Math.min(Math.round(adjusted), 255);`
(as an integer, before it is used as an array index). -/
noncomputable def adjustedBrightnessZ (compensation : ℝ) (p : Pixel) : ℤ :=
  min (round ((lumaOf p : ℝ) * (2 : ℝ) ^ compensation)) 255

/-- The bin index actually used to increment the 256-slot count array. -/
noncomputable def adjustedBrightness (compensation : ℝ) (p : Pixel) : ℕ :=
  (adjustedBrightnessZ compensation p).toNat

/-- `histogram[adjustedBrightness]++` over the subsampled pixels: the
count of sampled pixels falling into a given bin (combined mode). -/
noncomputable def combinedHistogram (data : List Pixel) (compensation : ℝ)
    (bin : ℕ) : ℕ :=
  ((sampleEveryOther data).map (adjustedBrightness compensation)).count bin

/-- `redHistogram[data[i]]++` etc. over the subsampled pixels: the count
of sampled pixels whose given raw channel value falls into a bin
(separate mode — no compensation gain, no luma mixing). -/
def channelHistogram (channel : Pixel → ℕ) (data : List Pixel) (bin : ℕ) : ℕ :=
  ((sampleEveryOther data).map channel).count bin

lemma lumaOf_nonneg (p : Pixel) : 0 ≤ lumaOf p := by
  apply Int.floor_nonneg.mpr
  positivity

lemma adjustedBrightnessZ_nonneg (compensation : ℝ) (p : Pixel) :
    0 ≤ adjustedBrightnessZ compensation p := by
  apply le_min _ (by norm_num)
  rw [round_eq]
  apply Int.floor_nonneg.mpr
  have h1 : (0 : ℝ) ≤ (lumaOf p : ℤ) := Int.cast_nonneg.mpr (lumaOf_nonneg p)
  have h2 : (0 : ℝ) ≤ (2 : ℝ) ^ compensation :=
    Real.rpow_nonneg (by norm_num) compensation
  have := mul_nonneg h1 h2
  linarith

lemma adjustedBrightnessZ_le (compensation : ℝ) (p : Pixel) :
    adjustedBrightnessZ compensation p ≤ 255 :=
  min_le_right _ _

lemma adjustedBrightness_lt (compensation : ℝ) (p : Pixel) :
    adjustedBrightness compensation p < 256 := by
  have h : adjustedBrightness compensation p ≤ 255 :=
    Int.toNat_le.mpr (adjustedBrightnessZ_le compensation p)
  omega

theorem mem_of_mem_sampleEveryOther :
    ∀ (l : List Pixel) (x : Pixel), x ∈ sampleEveryOther l → x ∈ l
  | [], x, hx => by simpa [sampleEveryOther] using hx
  | [p], x, hx => by simpa [sampleEveryOther] using hx
  | p :: q :: rest, x, hx => by
    simp only [sampleEveryOther, List.mem_cons] at hx ⊢
    rcases hx with h | h
    · exact Or.inl h
    · exact Or.inr (Or.inr (mem_of_mem_sampleEveryOther rest x h))

/-- A histogram whose bins cover all occurring values conserves the
count. -/
lemma sum_count_eq_length (s : Finset ℕ) (l : List ℕ) (h : ∀ x ∈ l, x ∈ s) :
    ∑ bin in s, l.count bin = l.length := by
  induction l with
  | nil => simp
  | cons a t ih =>
    have ha : a ∈ s := h a (List.mem_cons_self a t)
    have ht : ∀ x ∈ t, x ∈ s := fun x hx => h x (List.mem_cons_of_mem a hx)
    simp only [List.count_cons, List.length_cons]
    rw [Finset.sum_add_distrib, ih ht]
    congr 1
    simp only [beq_iff_eq]
    rw [Finset.sum_ite_eq s a (fun _ => 1)]
    exact if_pos ha

/-- Specialisation to the 256-slot count arrays of `drawHistogram`. -/
lemma sum_range_count (l : List ℕ) (h : ∀ x ∈ l, x < 256) :
    ∑ bin in Finset.range 256, l.count bin = l.length :=
  sum_count_eq_length (Finset.range 256) l
    (fun x hx => Finset.mem_range.mpr (h x hx))

/-- C8: Both histogram modes conserve the subsampled pixel count:
in combined mode the 256 bins sum to the number of sampled pixels, and
in separate mode each of the three per-channel histograms sums to the
same count (given 8-bit channel values, as delivered by `getImageData`). -/
theorem histogram_conserves_count (data : List Pixel) (compensation : ℝ) :
    (∑ bin in Finset.range 256, combinedHistogram data compensation bin) =
      (sampleEveryOther data).length ∧
    ((∀ p ∈ data, p.r ≤ 255 ∧ p.g ≤ 255 ∧ p.b ≤ 255) →
      (∑ bin in Finset.range 256, channelHistogram Pixel.r data bin) =
        (sampleEveryOther data).length ∧
      (∑ bin in Finset.range 256, channelHistogram Pixel.g data bin) =
        (sampleEveryOther data).length ∧
      (∑ bin in Finset.range 256, channelHistogram Pixel.b data bin) =
        (sampleEveryOther data).length) := by
  constructor
  · have h := sum_range_count
      ((sampleEveryOther data).map (adjustedBrightness compensation))
      (by
        intro x hx
        obtain ⟨p, -, rfl⟩ := List.mem_map.mp hx
        exact adjustedBrightness_lt compensation p)
    unfold combinedHistogram
    rw [h, List.length_map]
  · intro h8
    have hchan : ∀ channel : Pixel → ℕ, (∀ p ∈ data, channel p ≤ 255) →
        (∑ bin in Finset.range 256, channelHistogram channel data bin) =
          (sampleEveryOther data).length := by
      intro channel hc
      have h := sum_range_count ((sampleEveryOther data).map channel)
        (by
          intro x hx
          obtain ⟨p, hp, rfl⟩ := List.mem_map.mp hx
          have := hc p (mem_of_mem_sampleEveryOther data p hp)
          omega)
      unfold channelHistogram
      rw [h, List.length_map]
    exact ⟨hchan Pixel.r (fun p hp => (h8 p hp).1),
      hchan Pixel.g (fun p hp => (h8 p hp).2.1),
      hchan Pixel.b (fun p hp => (h8 p hp).2.2)⟩

/-- Witness for `histogram_conserves_count` on a concrete three-pixel
frame (two of which are sampled). -/
theorem histogram_conserves_count_witness :
    (∀ p ∈ [Pixel.mk 0 0 0, Pixel.mk 255 255 255, Pixel.mk 10 20 30],
        p.r ≤ 255 ∧ p.g ≤ 255 ∧ p.b ≤ 255) ∧
    (∑ bin in Finset.range 256,
        channelHistogram Pixel.r [Pixel.mk 0 0 0, Pixel.mk 255 255 255, Pixel.mk 10 20 30] bin) =
      (sampleEveryOther [Pixel.mk 0 0 0, Pixel.mk 255 255 255, Pixel.mk 10 20 30]).length :=
  ⟨by decide,
   ((histogram_conserves_count
      [Pixel.mk 0 0 0, Pixel.mk 255 255 255, Pixel.mk 10 20 30] 0).2
      (by decide)).1⟩

/-- C10: The combined-mode bin index is always within the 256-slot
array: for every pixel and every (finite) compensation the clamped
integer value lies in `[0, 255]`, so `histogram[adjustedBrightness]++`
never indexes out of bounds (strongly negative compensation degrades
the index to 0, never below). -/
theorem adjustedBrightness_in_range (p : Pixel) (compensation : ℝ) :
    0 ≤ adjustedBrightnessZ compensation p ∧
    adjustedBrightnessZ compensation p ≤ 255 ∧
    adjustedBrightness compensation p < 256 :=
  ⟨adjustedBrightnessZ_nonneg compensation p,
   adjustedBrightnessZ_le compensation p,
   adjustedBrightness_lt compensation p⟩

/-- `const zoneNumbers = [2, 3, 4, 5, 6, 7]` (the variant carrying the
zone overlay). -/
def zoneNumbers : List ℤ := [2, 3, 4, 5, 6, 7]

/-- `referenceGray * Math.pow(2, zone - 5)` — the marker brightness of a
zone. -/
def zoneBoundary (zone : ℤ) : ℚ := referenceGray * 2 ^ (zone - 5)

/-- `const computedBoundaries = zoneNumbers.map(zone =>
referenceGray * Math.pow(2, zone - 5));` -/
def computedBoundaries : List ℚ := zoneNumbers.map zoneBoundary

/-- The clamp-and-flag pass:

  let clipped = false;
  const boundaries = computedBoundaries.map(b => {
    if (b > 255) { clipped = true; return 255; }
    return b;
  });
-/
def boundaries : List ℚ := computedBoundaries.map fun b => if 255 < b then 255 else b

/-- The `clipped` flag: set exactly when some computed boundary exceeded
255 during the clamp pass. -/
def clipped : Bool := computedBoundaries.any fun b => decide (255 < b)

/-- C9: Zone markers are `referenceGray * 2^(zone - 5)` over the
fixed zone list, and the clipped flag is true exactly when some
computed marker brightness exceeds 255; with `referenceGray = 128` the
zone-7 marker is `512 > 255` (so the flag is set) while the zone-5
marker is `128 ≤ 255`. -/
theorem zone_overlay_clipping :
    (∀ z : ℤ, zoneBoundary z = referenceGray * 2 ^ (z - 5)) ∧
    computedBoundaries = [16, 32, 64, 128, 256, 512] ∧
    (clipped = true ↔ ∃ b ∈ computedBoundaries, 255 < b) ∧
    zoneBoundary 7 = 512 ∧ (255 : ℚ) < zoneBoundary 7 ∧
    zoneBoundary 5 = 128 ∧ zoneBoundary 5 ≤ 255 ∧
    clipped = true := by
  have hlist : computedBoundaries = [16, 32, 64, 128, 256, 512] := by
    unfold computedBoundaries zoneNumbers
    simp only [List.map_cons, List.map_nil]
    norm_num [zoneBoundary, referenceGray]
  have hiff : clipped = true ↔ ∃ b ∈ computedBoundaries, 255 < b := by
    simp only [clipped, List.any_eq_true, decide_eq_true_eq]
  have h7 : zoneBoundary 7 = 512 := by norm_num [zoneBoundary, referenceGray]
  have h5 : zoneBoundary 5 = 128 := by norm_num [zoneBoundary, referenceGray]
  refine ⟨fun z => rfl, hlist, hiff, h7, ?_, h5, ?_, ?_⟩
  · rw [h7]
    norm_num
  · rw [h5]
    norm_num
  · rw [hiff, hlist]
    refine ⟨512, ?_, by norm_num⟩
    simp

end LightMeter
